import Mathlib

/-!
Verification of the notification-delivery core of micichocki/ztp2 against its
natural-language specification.

The Python sources are shallowly embedded: instants and wall-clock times are
integer minutes, pytz timezones are pairs of offset functions (offset at a UTC
instant, as used by `astimezone`, and offset chosen by `localize` for a naive
wall time), fallible operations return `Except` or `Option`, and the mutable
notification row is explicit state threaded through each operation.
-/

namespace Ztp2

/-! ## Configuration (src/config.py) -/

def MAX_RETRY_ATTEMPTS : Nat := 3

def RETRY_DELAY : Int := 1

def APPROPRIATE_HOURS_START : Int := 8

def APPROPRIATE_HOURS_END : Int := 23

/-! ## Time model

An instant is a count of minutes from an arbitrary UTC epoch placed at a UTC
midnight; a wall-clock time is a count of minutes from the corresponding local
midnight of that epoch.  A pytz timezone is embedded as two offset functions:
`offAtInstant` is the UTC offset (in minutes) that `dt.astimezone(tz)` attaches
at a given instant, and `offAtWall` is the offset `tz.localize(naive)` chooses
for a naive wall time.  Python datetime arithmetic on an aware value
(`+ timedelta`, `.replace`) changes the wall fields while keeping the captured
offset, and `.astimezone(pytz.UTC)` subtracts that (possibly stale) offset. -/

structure Timezone where
  offAtInstant : Int → Int
  offAtWall : Int → Int

def utcTimezone : Timezone := ⟨fun _ => 0, fun _ => 0⟩

def fixedOffsetTimezone (o : Int) : Timezone := ⟨fun _ => o, fun _ => o⟩

def wallHour (w : Int) : Int := w / 60 % 24

/-- `local_dt.replace(hour := h, minute := 0, second := 0, microsecond := 0)`
on a wall time: keep the calendar date, set the time of day to `h:00:00`. -/
def replaceHour (w h : Int) : Int := w / 1440 * 1440 + h * 60

/-- `datetime.fromisoformat` result: naive (`tzo = none`) or offset-aware. -/
structure IsoDateTime where
  wall : Int
  tzo : Option Int
deriving DecidableEq

/-! ## TimeUtils (src/utils/time_utils.py) -/

/-- `TimeUtils.is_within_appropriate_hours`: convert the instant to the zone's
local time and test whether its hour lies in the half-open configured window. -/
def is_within_appropriate_hours (tz : Timezone) (i : Int) : Bool :=
  let h := wallHour (i + tz.offAtInstant i)
  decide (APPROPRIATE_HOURS_START ≤ h ∧ h < APPROPRIATE_HOURS_END)

/-- `TimeUtils.get_next_appropriate_time`: convert the instant to local time
(capturing the offset in force at that instant); if the local hour is outside
the window, add a day when the hour is at or past the window end, set the time
of day to the window start, and convert back to UTC with the captured offset
(the pytz tzinfo is not renormalised by `+ timedelta` or `.replace`). -/
def get_next_appropriate_time (tz : Timezone) (i : Int) : Int :=
  let o := tz.offAtInstant i
  let w := i + o
  let h := wallHour w
  if APPROPRIATE_HOURS_END ≤ h ∨ h < APPROPRIATE_HOURS_START then
    let w1 := if APPROPRIATE_HOURS_END ≤ h then w + 1440 else w
    replaceHour w1 APPROPRIATE_HOURS_START - o
  else
    i

/-- America/New_York around the fall-back transition of 2025-11-02, with the
epoch at 2025-11-01T00:00Z: offset -240 (EDT) before the transition instant
2025-11-02T06:00Z (= minute 1800), offset -300 (EST) from it on. -/
def americaNewYork2025 : Timezone :=
  ⟨fun i => if i < 1800 then -240 else -300, fun w => if w < 1560 then -240 else -300⟩

/-! ## Scheduling (src/tasks.py, `schedule_notification`) -/

/-- The ETA that `schedule_notification` passes to `apply_async` (tasks.py
lines 170-193): a supplied time is parsed, localized to the request timezone
when naive, and converted to UTC; with no supplied time the current UTC time
is used.  No appropriate-hours adjustment is applied anywhere on this path. -/
def schedule_eta (tz : Timezone) (scheduled_time : Option IsoDateTime) (now : Int) : Int :=
  match scheduled_time with
  | some iso =>
    match iso.tzo with
    | none => iso.wall - tz.offAtWall iso.wall
    | some o => iso.wall - o
  | none => now

/-- Modelled from the spec (§4.3 step 2), for comparison with `schedule_eta`:
resolve the requested delivery time by interpreting a supplied scheduled time
in the given timezone, otherwise using the current time. -/
def spec_resolved_time (tz : Timezone) (scheduled_time : Option IsoDateTime) (now : Int) : Int :=
  match scheduled_time with
  | some iso =>
    match iso.tzo with
    | none => iso.wall - tz.offAtWall iso.wall
    | some o => iso.wall - o
  | none => now

/-! ## Notification model (src/models.py) -/

inductive NotificationStatus
  | scheduled
  | processing
  | delivered
  | failed
  | cancelled
deriving DecidableEq

inductive DeliveryChannel
  | push
  | email
deriving DecidableEq

/-- `Notification.__init__` (models.py lines 45-74) sets `scheduled_time` to
`datetime.fromisoformat(scheduled_time)` when a string is supplied — keeping
it exactly as parsed, with no localization to the request timezone — and to
`datetime.now(pytz.UTC)` otherwise. -/
def notification_init_scheduled_time (scheduled_time : Option IsoDateTime) (now : Int) : IsoDateTime :=
  match scheduled_time with
  | some iso => iso
  | none => ⟨now, some 0⟩

/-- The instant a stored datetime denotes: an aware value is its wall time
minus its offset; a naive value carries no offset and reads back as UTC. -/
def instantOfStored (d : IsoDateTime) : Int :=
  match d.tzo with
  | some o => d.wall - o
  | none => d.wall

/-! ## Delivery executor (src/tasks.py, `_handle_notification_delivery`) -/

/-- The mutable persisted fields the delivery executor touches. -/
structure NotifRec where
  status : NotificationStatus
  attempt_count : Nat
deriving DecidableEq

inductive DeliveryOutcome
  | notFound
  | skippedCancelled
  | deliveredOk
  | retryScheduled
  | maxRetriesExceeded
deriving DecidableEq

/-- `_handle_notification_delivery` (tasks.py lines 59-123) for one execution,
with the channel delivery attempt's result abstracted as `deliveryOk`: a
missing row reports failure; a CANCELLED row is skipped; otherwise the status
is persisted as PROCESSING, the attempt is made, and on success the status
becomes DELIVERED while on any exception the status is set to FAILED and the
attempt count incremented in a single commit, after which a retry is requested
(`task_instance.retry`) exactly when the new count is below
`MAX_RETRY_ATTEMPTS`, else `MaxRetriesExceededError` is raised. -/
def handle_notification_delivery (n : Option NotifRec) (deliveryOk : Bool) :
    Option NotifRec × DeliveryOutcome :=
  match n with
  | none => (none, .notFound)
  | some nr =>
    if nr.status = .cancelled then (some nr, .skippedCancelled)
    else if deliveryOk then
      (some ⟨.delivered, nr.attempt_count⟩, .deliveredOk)
    else
      let a := nr.attempt_count + 1
      if a < MAX_RETRY_ATTEMPTS then (some ⟨.failed, a⟩, .retryScheduled)
      else (some ⟨.failed, a⟩, .maxRetriesExceeded)

/-! ## Core transition system (src/tasks.py)

One notification followed through the core's operations.  `pending` counts the
delivery-task executions currently enqueued for it (the initial schedule, a
force re-enqueue, or a retry); revocation is best-effort, so `force` and
`cancel` take a flag saying whether the revocation of the outstanding task
actually removed it.  Each step also returns the list of status values the
operation persists (commits), in order. -/

structure CoreState where
  status : NotificationStatus
  attempt_count : Nat
  pending : Nat
deriving DecidableEq

inductive CoreEvent
  | deliver (deliveryOk : Bool)
  | force (revokeOk : Bool)
  | cancel (revokeOk : Bool)
deriving DecidableEq

/-- `schedule_notification` persists the row with status SCHEDULED and
enqueues one delivery task. -/
def initialCoreState : CoreState := ⟨.scheduled, 0, 1⟩

/-- One core operation (tasks.py): a delivery-task execution
(`_handle_notification_delivery`), `force_immediate_delivery`, or
`cancel_notification`, with the statuses it persists. -/
def coreStep (s : CoreState) (e : CoreEvent) : CoreState × List NotificationStatus :=
  match e with
  | .deliver ok =>
    match s.pending with
    | 0 => (s, [])
    | p + 1 =>
      if s.status = .cancelled then ({ s with pending := p }, [])
      else if ok then (⟨.delivered, s.attempt_count, p⟩, [.processing, .delivered])
      else
        let a := s.attempt_count + 1
        let p' := if a < MAX_RETRY_ATTEMPTS then p + 1 else p
        (⟨.failed, a, p'⟩, [.processing, .failed])
  | .force rOk =>
    if s.status = .scheduled then
      let p := if rOk then s.pending - 1 else s.pending
      (⟨.processing, s.attempt_count, p + 1⟩, [.processing])
    else (s, [])
  | .cancel rOk =>
    if s.status = .scheduled then
      let p := if rOk then s.pending - 1 else s.pending
      (⟨.cancelled, s.attempt_count, p⟩, [.cancelled])
    else (s, [])

/-- The status changes (previous value, newly persisted value) a sequence of
committed writes performs, starting from the current persisted status; a write
of the value already stored is not a change. -/
def writeChanges : NotificationStatus → List NotificationStatus →
    List (NotificationStatus × NotificationStatus)
  | _, [] => []
  | cur, w :: ws => (if w = cur then [] else [(cur, w)]) ++ writeChanges w ws

/-- All status changes persisted along a run of core operations. -/
def traceChanges : CoreState → List CoreEvent →
    List (NotificationStatus × NotificationStatus)
  | _, [] => []
  | s, e :: es =>
    let r := coreStep s e
    writeChanges s.status r.2 ++ traceChanges r.1 es

/-- The transitions of the spec's §4.3 state machine. -/
def specAllowedEdges : List (NotificationStatus × NotificationStatus) :=
  [(.scheduled, .processing), (.scheduled, .cancelled),
   (.processing, .delivered), (.processing, .failed)]

/-- The transitions the code actually performs: §4.3's edges plus re-entry
into PROCESSING from FAILED (a retry execution after a failed attempt) and
from DELIVERED (a stale, unrevoked duplicate execution). -/
def codeEdges : List (NotificationStatus × NotificationStatus) :=
  specAllowedEdges ++ [(.failed, .processing), (.delivered, .processing)]

/-! ## Validation (src/notification_validator.py, src/policy.py)

`NotificationService` (service.py) imports `NotificationValidator` from the
top-level `notification_validator` module, whose policy list is
`[TimeZonePolicy(), TimeRangePolicy()]` and whose `validate` wraps the whole
loop in one `try`, so the first `ValidationError` aborts the run.  The request
model (`models.NotificationRequest`) has no priority field.  The external
facts a policy consults (the pytz zone database, `fromisoformat` plus
`localize`, and the current time in a zone) are passed in as an environment;
`parseIso` yields the parsed local wall time or `none` on a `ValueError`. -/

structure NotificationRequest where
  recipient_id : String
  content : String
  timezone : String
  scheduled_time : Option String
deriving DecidableEq

structure ValidationEnv where
  tzKnown : String → Bool
  parseIso : String → Option Int
  nowInTz : String → Int

/-- `TimeZonePolicy.validate` (policy.py lines 13-17). -/
def timeZonePolicy (env : ValidationEnv) (n : NotificationRequest) : Option String :=
  if env.tzKnown n.timezone then none
  else some ("Invalid timezone provided: " ++ n.timezone)

/-- `TimeRangePolicy.validate` (policy.py lines 20-31). -/
def timeRangePolicy (env : ValidationEnv) (n : NotificationRequest) : Option String :=
  match n.scheduled_time with
  | none => none
  | some s =>
    match env.parseIso s with
    | none => some ("Invalid scheduled time format: " ++ s)
    | some w =>
      if w < env.nowInTz n.timezone then
        some "Scheduled time cannot be in the past for the specified timezone."
      else none

/-- `ContentLengthPolicy.validate` (policy.py lines 48-58); defined in the
source but absent from the used validator's policy list. -/
def contentLengthPolicy (n : NotificationRequest) : Option String :=
  if n.content = "" then some "Notification content cannot be empty"
  else if 2000 < n.content.length then
    some "Notification content exceeds maximum length of 2000 characters"
  else none

/-- `NotificationValidator.validate` (src/notification_validator.py lines
14-19): run TimeZonePolicy then TimeRangePolicy, aborting at the first
failure and re-raising it wrapped once. -/
def validate (env : ValidationEnv) (n : NotificationRequest) : Except String Unit :=
  match timeZonePolicy env n with
  | some e => .error ("Validation failed: " ++ e)
  | none =>
    match timeRangePolicy env n with
    | some e => .error ("Validation failed: " ++ e)
    | none => .ok ()

/-! ## Service operations (src/service.py, src/tasks.py)

The store is the notifications table, an association list from id to the
mutable fields.  `force_delivery` and `cancel_notification` first run the
service-layer checks (service.py lines 49-106), which raise
`NotificationNotFoundException` or `InvalidNotificationStateException` before
anything is enqueued, and on success dispatch the corresponding task
(tasks.py lines 248-347), whose persisted effect on the row is applied here
synchronously. -/

abbrev Store := List (String × NotifRec)

def getById (st : Store) (id : String) : Option NotifRec :=
  match st with
  | [] => none
  | (k, v) :: rest => if k = id then some v else getById rest id

def setStatus (st : Store) (id : String) (new : NotificationStatus) : Store :=
  st.map fun kv => if kv.1 = id then (kv.1, { kv.2 with status := new }) else kv

inductive ServiceError
  | notFound
  | invalidState
deriving DecidableEq

/-- `NotificationService.force_delivery` (service.py lines 49-76) followed, on
success, by the persisted effect of `force_immediate_delivery` (tasks.py lines
248-300): best-effort revocation, status PROCESSING, new task enqueued. -/
def force_delivery (st : Store) (id : String) : Except ServiceError Unit × Store :=
  match getById st id with
  | none => (.error .notFound, st)
  | some n =>
    if n.status = .scheduled then (.ok (), setStatus st id .processing)
    else (.error .invalidState, st)

/-- `NotificationService.cancel_notification` (service.py lines 78-106)
followed, on success, by the persisted effect of the `cancel_notification`
task (tasks.py lines 303-347): best-effort revocation, status CANCELLED. -/
def cancel_notification (st : Store) (id : String) : Except ServiceError Unit × Store :=
  match getById st id with
  | none => (.error .notFound, st)
  | some n =>
    if n.status = .scheduled then (.ok (), setStatus st id .cancelled)
    else (.error .invalidState, st)

/-! ## Metrics (src/metrics.py)

`MetricsCollector` initialises `_stats_records = defaultdict(list)` but
defines no recording method, and src exports no `metrics` instance, although
src/tasks.py calls `metrics.record_notification(server_id, channel, status)`
at every lifecycle step.  `get_metrics` builds its output from the Celery
inspector and the Flower task API; the recorded store enters only through
`self._stats_records.keys()` when collecting worker ids. -/

structure MetricRecord where
  channel : DeliveryChannel
  status : NotificationStatus
  bucket : Int
deriving DecidableEq

abbrev StatsRecords := List (String × List MetricRecord)

/-- Modelled from the spec: `record_notification` is called from src/tasks.py
but no definition of it (nor of the `metrics` instance) exists under src;
per §4.6 it increments a counter bucketed by the current time unit under the
composite key (server, channel, status), here one entry appended under the
server's key of the defaultdict-of-lists `_stats_records`. -/
def record_notification (stats : StatsRecords) (server : String)
    (c : DeliveryChannel) (st : NotificationStatus) (bucket : Int) : StatsRecords :=
  match stats with
  | [] => [(server, [⟨c, st, bucket⟩])]
  | (k, v) :: rest =>
    if k = server then (k, ⟨c, st, bucket⟩ :: v) :: rest
    else (k, v) :: record_notification rest server c st bucket

/-- Total number of recorded counter increments in the store. -/
def totalRecorded (stats : StatsRecords) : Nat :=
  (stats.map fun kv => kv.2.length).sum

/-- One entry of the Flower `/api/tasks` response. -/
structure TaskData where
  worker : Option String
  state : String
  timestamp : Option Int
deriving DecidableEq

/-- The external Celery/Flower facts `get_metrics` consults. -/
structure FlowerState where
  activeWorkers : List (String × Nat)
  reserved : List (String × Nat)
  active : List (String × Nat)
  apiTasks : List TaskData
deriving DecidableEq

structure WorkerTaskStats where
  success_tasks : Nat
  failed_tasks : Nat
  pending_tasks : Nat
deriving DecidableEq

/-- Per-server entry of the `get_metrics` result; `task_stats` is present
exactly when `_process_tasks_by_worker` produced an entry for the worker (its
`pending_tasks` then overwrites the reserved count in the Python dict). -/
structure ServerData where
  total_tasks : Nat
  pending_tasks : Nat
  active_tasks : Nat
  task_stats : Option WorkerTaskStats
deriving DecidableEq

/-- `MetricsCollector._is_in_date_range` (metrics.py lines 163-181). -/
def inDateRange (t : Option Int) (startDate endDate : Option Int) : Bool :=
  match t with
  | none => true
  | some ts =>
    (match startDate with
     | some s => decide (s ≤ ts)
     | none => true) &&
    (match endDate with
     | some e => decide (ts ≤ e)
     | none => true)

def isCountedState (s : String) : Bool :=
  s = "SUCCESS" || s = "FAILURE" || s = "RECEIVED"

/-- The api tasks attributed to worker `w` within the window. -/
def tasksFor (fl : FlowerState) (w : String) (startDate endDate : Option Int) :
    List TaskData :=
  fl.apiTasks.filter fun t =>
    t.worker = some w && inDateRange t.timestamp startDate endDate

/-- `MetricsCollector._count_task_by_state` totals for one worker. -/
def workerTaskStats (fl : FlowerState) (w : String)
    (startDate endDate : Option Int) : WorkerTaskStats :=
  ⟨(tasksFor fl w startDate endDate).countP (fun t => t.state = "SUCCESS"),
   (tasksFor fl w startDate endDate).countP (fun t => t.state = "FAILURE"),
   (tasksFor fl w startDate endDate).countP (fun t => t.state = "RECEIVED")⟩

/-- The workers for which `_process_tasks_by_worker` creates an entry, in
first-counted-task order: some in-window, filter-passing task of theirs has a
counted state. -/
def statsWorkerIds (fl : FlowerState) (workerFilter : Option String)
    (startDate endDate : Option Int) : List String :=
  List.foldl
    (fun acc t =>
      match t.worker with
      | none => acc
      | some w =>
        if (match workerFilter with
            | some f => f = w
            | none => true) &&
           inDateRange t.timestamp startDate endDate &&
           isCountedState t.state &&
           !(acc.contains w)
        then acc ++ [w] else acc)
    [] fl.apiTasks

/-- Append the members of `extra` not already present. -/
def appendNew (base extra : List String) : List String :=
  List.foldl (fun acc w => if acc.contains w then acc else acc ++ [w]) base extra

/-- `MetricsCollector._collect_worker_ids` (metrics.py lines 53-74). -/
def collect_worker_ids (serverId : Option String) (activeIds statsIds recordedIds :
    List String) : List String :=
  match serverId with
  | some sid => [sid]
  | none => appendNew (appendNew activeIds statsIds) recordedIds

def lookupNat (l : List (String × Nat)) (k : String) : Option Nat :=
  match l with
  | [] => none
  | (k', v) :: rest => if k' = k then some v else lookupNat rest k

structure MetricsResult where
  servers : List (String × ServerData)
deriving DecidableEq

/-- `MetricsCollector.get_metrics` (metrics.py lines 17-51): collect worker
ids from the inspector, the per-worker api-task stats (filtered by the
requested server id) and the keys of `_stats_records`, then assemble each
server's data from inspector counts and, if present, its api-task stats. -/
def get_metrics (stats : StatsRecords) (fl : FlowerState) (serverId : Option String)
    (startDate endDate : Option Int) : MetricsResult :=
  let wts := statsWorkerIds fl serverId startDate endDate
  let ids := collect_worker_ids serverId (fl.activeWorkers.map Prod.fst) wts
    (stats.map Prod.fst)
  ⟨ids.map fun w =>
    (w,
     { total_tasks := (lookupNat fl.activeWorkers w).getD 0
       pending_tasks := (lookupNat fl.reserved w).getD 0
       active_tasks := (lookupNat fl.active w).getD 0
       task_stats :=
         if wts.contains w then some (workerTaskStats fl w startDate endDate)
         else none })⟩

/-! ## Priority weighting (spec §4.2) -/

/-- Modelled from the spec: no Priority Weighting implementation exists under
src (no request field, no formula, no priority argument to `apply_async`);
§4.2 prescribes drawing `r` uniformly in [0,100], setting `f = base/10` and
`actual = round(r*f + base*10*(1-f))`.  `round` is rounding to the nearest
integer (the tie-breaking rule does not affect any bound proved here). -/
def priority_actual (base r : ℚ) : ℤ :=
  round (r * (base / 10) + base * 10 * (1 - base / 10))

/-- Modelled from the spec: clamping to the queue's accepted 0-100 range. -/
def clamp_priority (x : ℤ) : ℤ := max 0 (min 100 x)

/-! ## Claim C1 -/

/-- Every single core operation only performs status changes from `codeEdges`,
whatever the current state. -/
lemma coreStep_changes_sub (s : CoreState) (e : CoreEvent) :
    ∀ p ∈ writeChanges s.status (coreStep s e).2, p ∈ codeEdges := by
  rcases s with ⟨st, a, pd⟩
  cases e with
  | deliver ok =>
    cases pd with
    | zero => simp [coreStep, writeChanges]
    | succ p =>
      cases st <;> cases ok <;>
        simp [coreStep, writeChanges, codeEdges, specAllowedEdges, MAX_RETRY_ATTEMPTS]
  | force rOk =>
    cases st <;> simp [coreStep, writeChanges, codeEdges, specAllowedEdges]
  | cancel rOk =>
    cases st <;> simp [coreStep, writeChanges, codeEdges, specAllowedEdges]

lemma traceChanges_sub (evs : List CoreEvent) :
    ∀ (s : CoreState) (p : NotificationStatus × NotificationStatus),
      p ∈ traceChanges s evs → p ∈ codeEdges := by
  induction evs with
  | nil => intro s p hp; simp [traceChanges] at hp
  | cons e es ih =>
    intro s p hp
    simp only [traceChanges, List.mem_append] at hp
    rcases hp with h | h
    · exact coreStep_changes_sub s e p h
    · exact ih _ p h

/-- Claim C1, corrected: along every sequence of core operations the persisted
status changes only along SCHEDULED→PROCESSING, SCHEDULED→CANCELLED,
PROCESSING→DELIVERED, PROCESSING→FAILED, *and additionally*
FAILED→PROCESSING (a retry execution fires after a failed attempt set the
status to FAILED) and DELIVERED→PROCESSING (a stale, unrevoked duplicate task
execution re-enters processing); only CANCELLED is never left. -/
theorem c1_amended (evs : List CoreEvent) (p : NotificationStatus × NotificationStatus)
    (hp : p ∈ traceChanges initialCoreState evs) : p ∈ codeEdges :=
  traceChanges_sub evs initialCoreState p hp

theorem c1_witness :
    (NotificationStatus.scheduled, NotificationStatus.processing) ∈
      traceChanges initialCoreState [CoreEvent.deliver true] ∧
    (NotificationStatus.scheduled, NotificationStatus.processing) ∈ codeEdges :=
  ⟨by decide, c1_amended [CoreEvent.deliver true] _ (by decide)⟩

/-- Claim C1, as stated, is false: after one failed delivery attempt the
status is FAILED (with attempt_count 1 < 3 and a retry enqueued), and the
retry execution changes the status FAILED→PROCESSING, which is outside the
spec's state machine. -/
theorem c1_counterexample :
    ¬ (∀ p ∈ traceChanges initialCoreState [CoreEvent.deliver false, CoreEvent.deliver false],
        p ∈ specAllowedEdges) := by
  decide

/-! ## Claim C2 -/

/-- Claim C2, as stated, is false: the executor does not reserve FAILED for
exhausted retries.  With attempt_count 0 a failed attempt persists status
FAILED although the incremented count 1 is below MAX_RETRY_ATTEMPTS = 3. -/
theorem c2_counterexample :
    ¬ (∀ nr : NotifRec, nr.status ≠ NotificationStatus.cancelled →
        ∀ nr', (handle_notification_delivery (some nr) false).1 = some nr' →
          nr'.status = NotificationStatus.failed →
          MAX_RETRY_ATTEMPTS ≤ nr'.attempt_count) := by
  intro h
  have := h ⟨.scheduled, 0⟩ (by decide) ⟨.failed, 1⟩ (by decide) (by decide)
  exact absurd this (by decide)

/-- Claim C2, corrected: after every failed delivery attempt on a
non-CANCELLED notification the executor increments attempt_count and persists
status FAILED in the same commit, regardless of the retry budget; it then
requests a retry after the fixed delay exactly when the incremented count is
still below MAX_RETRY_ATTEMPTS, and raises MaxRetriesExceededError
otherwise. -/
theorem c2_amended (nr : NotifRec) (h : nr.status ≠ NotificationStatus.cancelled) :
    handle_notification_delivery (some nr) false =
      (some ⟨.failed, nr.attempt_count + 1⟩,
       if nr.attempt_count + 1 < MAX_RETRY_ATTEMPTS then .retryScheduled
       else .maxRetriesExceeded) := by
  simp only [handle_notification_delivery, if_neg h, Bool.false_eq_true, if_false]
  split <;> rfl

theorem c2_witness :
    (NotifRec.mk .scheduled 0).status ≠ NotificationStatus.cancelled ∧
    handle_notification_delivery (some ⟨.scheduled, 0⟩) false =
      (some ⟨.failed, 1⟩, .retryScheduled) :=
  ⟨by decide, by simpa using c2_amended ⟨.scheduled, 0⟩ (by decide)⟩

/-! ## Claim C3 -/

/-- Claim C3, as stated, is false: `schedule_notification` enqueues the
delivery task with the resolved time itself, never calling
`TimeUtils.get_next_appropriate_time`.  A request for 03:00 local (UTC) keeps
ETA 03:00 instead of the window start 08:00. -/
theorem c3_counterexample :
    ¬ (∀ (tz : Timezone) (st : Option IsoDateTime) (now : Int),
        schedule_eta tz st now =
          get_next_appropriate_time tz (spec_resolved_time tz st now)) := by
  intro h
  exact absurd (h utcTimezone (some ⟨180, none⟩) 0) (by decide)

/-- Claim C3, corrected: the enqueued delivery task's ETA is the resolved
request time unchanged — no appropriate-hours adjustment is applied on the
scheduling path.  The adjustment function `get_next_appropriate_time` itself,
with the configured window [8,23), does map a 03:00 local time to 08:00 the
same day, a 23:30 local time to 08:00 the next day, and leaves 14:00
unchanged. -/
theorem c3_amended :
    (∀ (tz : Timezone) (st : Option IsoDateTime) (now : Int),
      schedule_eta tz st now = spec_resolved_time tz st now) ∧
    get_next_appropriate_time utcTimezone 180 = 480 ∧
    get_next_appropriate_time utcTimezone 1410 = 1920 ∧
    get_next_appropriate_time utcTimezone 840 = 840 :=
  ⟨fun _ _ _ => rfl, by decide, by decide, by decide⟩

/-! ## Claim C4 -/

/-- A permissive environment: every zone known, no parse attempted. -/
def envAllValid : ValidationEnv := ⟨fun _ => true, fun _ => none, fun _ => 0⟩

/-- Claim C4, as stated, is false: the validator wired into the service runs
only the timezone and time-range policies, so a request with empty content —
a violation of the content policy — validates successfully. -/
theorem c4_counterexample :
    ¬ (∀ (env : ValidationEnv) (n : NotificationRequest),
        contentLengthPolicy n ≠ none → validate env n ≠ Except.ok ()) := by
  intro h
  exact h envAllValid ⟨"r1", "", "UTC", none⟩ (by decide) rfl

/-- Claim C4, corrected: the validator used by the service runs exactly two
policies — timezone and time-range — in order, stops at the first failure,
and raises a ValidationError wrapping that single policy's message; priority
and content length are not validated (the request model has no priority field
and the content policy is not in the policy list).  Validation succeeds iff
both run policies pass. -/
theorem c4_amended (env : ValidationEnv) (n : NotificationRequest) :
    (validate env n = Except.ok () ↔
      timeZonePolicy env n = none ∧ timeRangePolicy env n = none) ∧
    (∀ e, timeZonePolicy env n = some e →
      validate env n = Except.error ("Validation failed: " ++ e)) := by
  constructor
  · cases htz : timeZonePolicy env n with
    | none =>
      cases htr : timeRangePolicy env n with
      | none => simp [validate, htz, htr]
      | some e => simp [validate, htz, htr]
    | some e => simp [validate, htz]
  · intro e he
    simp [validate, he]

/-- An environment rejecting every zone name. -/
def envNoZones : ValidationEnv := ⟨fun _ => false, fun _ => none, fun _ => 0⟩

theorem c4_witness :
    timeZonePolicy envNoZones ⟨"r1", "hello", "Mars", none⟩ =
      some "Invalid timezone provided: Mars" ∧
    validate envNoZones ⟨"r1", "hello", "Mars", none⟩ =
      Except.error ("Validation failed: " ++ "Invalid timezone provided: Mars") :=
  ⟨rfl, (c4_amended envNoZones ⟨"r1", "hello", "Mars", none⟩).2 _ rfl⟩

/-! ## Claim C5 -/

/-- Claim C5, as stated, is false: across a DST transition the pytz
stale-offset arithmetic makes the adjustment non-idempotent.  In the
America/New_York model, the instant 2025-11-02T03:30Z (23:30 EDT on
2025-11-01) is first adjusted to 2025-11-02T12:00Z — which is 07:00 EST,
before the window — so a second application moves it again, to
2025-11-02T13:00Z. -/
theorem c5_counterexample :
    get_next_appropriate_time americaNewYork2025
        (get_next_appropriate_time americaNewYork2025 1650) ≠
      get_next_appropriate_time americaNewYork2025 1650 := by
  decide

/-- Claim C5, corrected: the appropriate-hours adjustment is idempotent for
every timezone whose UTC offset is constant (in particular UTC itself); for a
zone with a DST transition the offset captured before the adjustment can be
stale at the adjusted instant, and a second application can shift the result
again. -/
theorem c5_amended (o i : Int) :
    get_next_appropriate_time (fixedOffsetTimezone o)
        (get_next_appropriate_time (fixedOffsetTimezone o) i) =
      get_next_appropriate_time (fixedOffsetTimezone o) i := by
  by_cases hc : APPROPRIATE_HOURS_END ≤ wallHour (i + o) ∨
      wallHour (i + o) < APPROPRIATE_HOURS_START
  · have h1 : get_next_appropriate_time (fixedOffsetTimezone o) i =
        replaceHour (if APPROPRIATE_HOURS_END ≤ wallHour (i + o) then i + o + 1440
          else i + o) APPROPRIATE_HOURS_START - o := by
      simp only [get_next_appropriate_time, fixedOffsetTimezone]
      rw [if_pos hc]
    rw [h1]
    generalize (if APPROPRIATE_HOURS_END ≤ wallHour (i + o) then i + o + 1440
      else i + o) = w1
    have h2 : wallHour (replaceHour w1 APPROPRIATE_HOURS_START - o + o) =
        APPROPRIATE_HOURS_START := by
      unfold wallHour replaceHour APPROPRIATE_HOURS_START
      omega
    simp only [get_next_appropriate_time, fixedOffsetTimezone]
    rw [if_neg (by rw [h2]; decide)]
  · have h1 : get_next_appropriate_time (fixedOffsetTimezone o) i = i := by
      simp only [get_next_appropriate_time, fixedOffsetTimezone]
      rw [if_neg hc]
    rw [h1]
    exact h1

/-! ## Claim C6 -/

/-- Claim C6, confirmed (against the spec-modelled §4.2 formula): for every
base priority in [1,10] and every draw r in [0,100], the rounded execution
priority already lies in [0,100], so clamping to the queue's range is the
identity and the clamped value lies in [0,100]. -/
theorem c6_confirmed (base r : ℚ) (hb1 : 1 ≤ base) (hb2 : base ≤ 10)
    (hr1 : 0 ≤ r) (hr2 : r ≤ 100) :
    clamp_priority (priority_actual base r) = priority_actual base r ∧
    0 ≤ priority_actual base r ∧ priority_actual base r ≤ 100 := by
  have hb0 : (0 : ℚ) ≤ base := le_trans (by norm_num) hb1
  have hx0 : 0 ≤ r * (base / 10) + base * 10 * (1 - base / 10) := by nlinarith
  have hx100 : r * (base / 10) + base * 10 * (1 - base / 10) ≤ 100 := by
    nlinarith [sq_nonneg (10 - base), mul_nonneg hb0 (sub_nonneg.2 hr2)]
  have hrd : priority_actual base r =
      ⌊r * (base / 10) + base * 10 * (1 - base / 10) + 1 / 2⌋ := by
    rw [priority_actual, round_eq]
  have h0 : 0 ≤ priority_actual base r := by
    rw [hrd]
    exact Int.le_floor.2 (by push_cast; linarith)
  have h100 : priority_actual base r ≤ 100 := by
    rw [hrd]
    calc ⌊r * (base / 10) + base * 10 * (1 - base / 10) + 1 / 2⌋
        ≤ ⌊(100 : ℚ) + 1 / 2⌋ := Int.floor_mono (by linarith)
      _ = 100 := by rw [Int.floor_eq_iff]; norm_num
  exact ⟨by unfold clamp_priority; omega, h0, h100⟩

theorem c6_witness :
    ((1 : ℚ) ≤ 5 ∧ (5 : ℚ) ≤ 10 ∧ (0 : ℚ) ≤ 50 ∧ (50 : ℚ) ≤ 100) ∧
    (clamp_priority (priority_actual 5 50) = priority_actual 5 50 ∧
     0 ≤ priority_actual 5 50 ∧ priority_actual 5 50 ≤ 100) :=
  ⟨by norm_num,
   c6_confirmed 5 50 (by norm_num) (by norm_num) (by norm_num) (by norm_num)⟩

/-! ## Claim C7 -/

lemma totalRecorded_record (stats : StatsRecords) (server : String)
    (c : DeliveryChannel) (st : NotificationStatus) (bucket : Int) :
    totalRecorded (record_notification stats server c st bucket) =
      totalRecorded stats + 1 := by
  induction stats with
  | nil => simp [record_notification, totalRecorded]
  | cons kv rest ih =>
    rcases kv with ⟨k, v⟩
    by_cases h : k = server
    · simp [record_notification, h, totalRecorded]
      omega
    · simp only [record_notification, if_neg h, totalRecorded, List.map_cons,
        List.sum_cons] at ih ⊢
      omega

lemma get_metrics_ignores_counts (stats1 stats2 : StatsRecords) (fl : FlowerState)
    (serverId : Option String) (startDate endDate : Option Int)
    (h : stats1.map Prod.fst = stats2.map Prod.fst) :
    get_metrics stats1 fl serverId startDate endDate =
      get_metrics stats2 fl serverId startDate endDate := by
  unfold get_metrics
  rw [h]

/-- Claim C7, as stated, is false in its query half: recording one more count
under an already-known server changes the recorded totals but leaves every
`get_metrics` answer unchanged — the recorded bucket counts are lost (the
query aggregates Flower task states and uses `_stats_records` only for its
keys). -/
theorem c7_counterexample :
    totalRecorded (record_notification [("w1", [])] "w1" DeliveryChannel.push
        NotificationStatus.delivered 0) ≠ totalRecorded [("w1", [])] ∧
    get_metrics (record_notification [("w1", [])] "w1" DeliveryChannel.push
        NotificationStatus.delivered 0) ⟨[("w1", 2)], [], [], []⟩ none none none =
      get_metrics [("w1", [])] ⟨[("w1", 2)], [], [], []⟩ none none none := by
  exact ⟨by decide, by decide⟩

/-- Claim C7, corrected: the (spec-modelled) `record_notification` appends
exactly one counter entry under the server's key; but `get_metrics` does not
sum the recorded bucket counts — its result depends on the record store only
through the set of server keys, aggregating per-worker task states fetched
from the Celery inspector and the Flower API instead, so recorded counts
never reach a query answer. -/
theorem c7_amended :
    (∀ (stats : StatsRecords) (server : String) (c : DeliveryChannel)
       (st : NotificationStatus) (bucket : Int),
      totalRecorded (record_notification stats server c st bucket) =
        totalRecorded stats + 1) ∧
    (∀ (stats1 stats2 : StatsRecords) (fl : FlowerState) (serverId : Option String)
       (startDate endDate : Option Int),
      stats1.map Prod.fst = stats2.map Prod.fst →
      get_metrics stats1 fl serverId startDate endDate =
        get_metrics stats2 fl serverId startDate endDate) :=
  ⟨totalRecorded_record, get_metrics_ignores_counts⟩

theorem c7_witness :
    totalRecorded (record_notification [("w1", [])] "w1" DeliveryChannel.email
        NotificationStatus.failed 7) = totalRecorded [("w1", [])] + 1 ∧
    get_metrics (record_notification [("w1", [])] "w1" DeliveryChannel.email
        NotificationStatus.failed 7) ⟨[], [], [], []⟩ none none none =
      get_metrics [("w1", [])] ⟨[], [], [], []⟩ none none none :=
  ⟨c7_amended.1 [("w1", [])] "w1" DeliveryChannel.email NotificationStatus.failed 7,
   c7_amended.2 _ [("w1", [])] ⟨[], [], [], []⟩ none none none (by decide)⟩

/-! ## Claim C8 -/

/-- Claim C8, confirmed: force-delivery on a missing id signals NotFound, on
a stored notification whose status is not SCHEDULED (a CANCELLED one in
particular) signals InvalidState, and in both error cases the store — and so
every persisted field of the notification — is returned unchanged. -/
theorem c8_confirmed (st : Store) (id : String) :
    (getById st id = none → force_delivery st id = (.error .notFound, st)) ∧
    (∀ n, getById st id = some n → n.status ≠ NotificationStatus.scheduled →
      force_delivery st id = (.error .invalidState, st)) := by
  constructor
  · intro h
    simp [force_delivery, h]
  · intro n hn hs
    simp [force_delivery, hn, hs]

theorem c8_witness :
    (getById [("a", ⟨.cancelled, 0⟩)] "b" = none ∧
      force_delivery [("a", ⟨.cancelled, 0⟩)] "b" =
        (.error .notFound, [("a", ⟨.cancelled, 0⟩)])) ∧
    (getById [("a", ⟨.cancelled, 0⟩)] "a" = some ⟨.cancelled, 0⟩ ∧
      force_delivery [("a", ⟨.cancelled, 0⟩)] "a" =
        (.error .invalidState, [("a", ⟨.cancelled, 0⟩)])) :=
  ⟨⟨by decide, (c8_confirmed [("a", ⟨.cancelled, 0⟩)] "b").1 (by decide)⟩,
   ⟨by decide, (c8_confirmed [("a", ⟨.cancelled, 0⟩)] "a").2 ⟨.cancelled, 0⟩
      (by decide) (by decide)⟩⟩

/-! ## Claim C9 -/

lemma getById_setStatus (st : Store) (id : String) (s' : NotificationStatus) :
    getById (setStatus st id s') id =
      (getById st id).map fun n => { n with status := s' } := by
  induction st with
  | nil => rfl
  | cons kv rest ih =>
    rcases kv with ⟨k, v⟩
    by_cases h : k = id
    · subst h
      have hcons : setStatus ((k, v) :: rest) k s' =
          (k, { v with status := s' }) :: setStatus rest k s' := by
        simp [setStatus]
      rw [hcons]
      simp [getById]
    · have hcons : setStatus ((k, v) :: rest) id s' = (k, v) :: setStatus rest id s' := by
        simp [setStatus, h]
      rw [hcons]
      simp [getById, h, ih]

/-- Claim C9, confirmed: on a stored SCHEDULED notification the first cancel
succeeds and persists status CANCELLED, and an immediately following cancel
of the same id signals InvalidState because the status is no longer
SCHEDULED. -/
theorem c9_confirmed (st : Store) (id : String) (n : NotifRec)
    (hn : getById st id = some n) (hs : n.status = NotificationStatus.scheduled) :
    cancel_notification st id = (.ok (), setStatus st id .cancelled) ∧
    getById (setStatus st id .cancelled) id =
      some { n with status := NotificationStatus.cancelled } ∧
    (cancel_notification (setStatus st id .cancelled) id).1 =
      .error .invalidState := by
  have h2 : getById (setStatus st id .cancelled) id =
      some { n with status := NotificationStatus.cancelled } := by
    rw [getById_setStatus, hn]
    rfl
  refine ⟨by simp [cancel_notification, hn, hs], h2, ?_⟩
  simp [cancel_notification, h2]

theorem c9_witness :
    (getById [("a", ⟨.scheduled, 0⟩)] "a" = some ⟨.scheduled, 0⟩ ∧
      (NotifRec.mk .scheduled 0).status = NotificationStatus.scheduled) ∧
    (cancel_notification [("a", ⟨.scheduled, 0⟩)] "a" =
        (.ok (), setStatus [("a", ⟨.scheduled, 0⟩)] "a" .cancelled) ∧
      getById (setStatus [("a", ⟨.scheduled, 0⟩)] "a" .cancelled) "a" =
        some ⟨.cancelled, 0⟩ ∧
      (cancel_notification (setStatus [("a", ⟨.scheduled, 0⟩)] "a" .cancelled) "a").1 =
        .error .invalidState) :=
  ⟨⟨by decide, rfl⟩,
   c9_confirmed [("a", ⟨.scheduled, 0⟩)] "a" ⟨.scheduled, 0⟩ (by decide) rfl⟩

/-! ## Claim C10 -/

/-- Claim C10, confirmed: for a naive ISO scheduled time together with a
timezone of non-zero offset, the persisted `Notification.scheduled_time` is
the parse result itself — never localized to the request timezone — while the
delivery task's ETA localizes the same wall time to the zone and converts to
UTC, so the stored value and the enqueued ETA denote different instants. -/
theorem c10_confirmed (w o now : Int) (ho : o ≠ 0) :
    notification_init_scheduled_time (some ⟨w, none⟩) now = ⟨w, none⟩ ∧
    instantOfStored (notification_init_scheduled_time (some ⟨w, none⟩) now) = w ∧
    schedule_eta (fixedOffsetTimezone o) (some ⟨w, none⟩) now = w - o ∧
    instantOfStored (notification_init_scheduled_time (some ⟨w, none⟩) now) ≠
      schedule_eta (fixedOffsetTimezone o) (some ⟨w, none⟩) now := by
  refine ⟨rfl, rfl, rfl, ?_⟩
  simp only [instantOfStored, notification_init_scheduled_time, schedule_eta,
    fixedOffsetTimezone]
  omega

theorem c10_witness :
    (120 : Int) ≠ 0 ∧
    (notification_init_scheduled_time (some ⟨600, none⟩) 0 = ⟨600, none⟩ ∧
     instantOfStored (notification_init_scheduled_time (some ⟨600, none⟩) 0) = 600 ∧
     schedule_eta (fixedOffsetTimezone 120) (some ⟨600, none⟩) 0 = 600 - 120 ∧
     instantOfStored (notification_init_scheduled_time (some ⟨600, none⟩) 0) ≠
       schedule_eta (fixedOffsetTimezone 120) (some ⟨600, none⟩) 0) :=
  ⟨by decide, c10_confirmed 600 120 0 (by decide)⟩

end Ztp2
